import Mathlib

/-!
Shallow embedding of the kata-containers in-guest agent core
(`src/agent/src/grpc.rs` and `src/agent/src/namespace.rs`).

Pure functions of the source are translated to Lean functions; stateful RPC
handlers become explicit state-passing functions on a `Sandbox` record; the
outcomes of external syscalls and of collaborator crates (rustjail, mount,
device, netlink) are oracle parameters, so that each handler is the exact
control flow of the source over those outcomes. Where behaviour of repository
code outside the two source files is needed it is modelled from the spec and
marked as such in its doc comment.
-/

namespace KataAgent

/-! ### Association-list helpers (model of HashMap registries) -/

def alookup {κ α : Type} [DecidableEq κ] (k : κ) : List (κ × α) → Option α
  | [] => none
  | (k', v) :: t => if k' = k then some v else alookup k t

def ainsert {κ α : Type} [DecidableEq κ] (k : κ) (v : α) : List (κ × α) → List (κ × α)
  | [] => [(k, v)]
  | (k', v') :: t => if k' = k then (k, v) :: t else (k', v') :: ainsert k v t

def aerase {κ α : Type} [DecidableEq κ] (k : κ) : List (κ × α) → List (κ × α)
  | [] => []
  | (k', v') :: t => if k' = k then aerase k t else (k', v') :: aerase k t

/-! ### Character-list string helpers mirroring the Rust std string operations -/

/-- Mirrors Rust `str::split(sep)`: splits at every occurrence of `sep`,
keeping empty fragments, so the result is always non-empty. -/
def splitOnChar (sep : Char) : List Char → List (List Char)
  | [] => [[]]
  | c :: t =>
    let r := splitOnChar sep t
    if c = sep then [] :: r
    else
      match r with
      | [] => [[c]]
      | h :: t' => (c :: h) :: t'

/-- Splits at whitespace, keeping empty fragments (helper for `splitWS`). -/
def splitByWS : List Char → List (List Char)
  | [] => [[]]
  | c :: t =>
    let r := splitByWS t
    if c.isWhitespace then [] :: r
    else
      match r with
      | [] => [[c]]
      | h :: t' => (c :: h) :: t'

/-- Mirrors Rust `str::split_whitespace`: whitespace-separated non-empty words. -/
def splitWS (s : String) : List String :=
  ((splitByWS s.data).filter (fun w => w ≠ [])).map (fun w => String.mk w)

/-- Mirrors Rust `str::trim`. -/
def trimChars (cs : List Char) : List Char :=
  ((cs.dropWhile Char.isWhitespace).reverse.dropWhile Char.isWhitespace).reverse

/-- Mirrors Rust `String::split('\n')` as used on the `ps` output. -/
def splitLines (s : String) : List String :=
  (splitOnChar '\n' s.data).map (fun w => String.mk w)

/-- Digits of a decimal integer literal: all characters decimal, at least one. -/
def parseDecAux : List Char → Nat → Option Nat
  | [], acc => some acc
  | c :: t, acc =>
    if '0' ≤ c ∧ c ≤ '9' then parseDecAux t (acc * 10 + (c.toNat - 48))
    else none

/-- Mirrors Rust `str::parse::<i32>()`: optional sign, then decimal digits,
no other characters; overflow fails. -/
def parseI32chars? (cs : List Char) : Option Int :=
  match cs with
  | [] => none
  | '+' :: t =>
    match t with
    | [] => none
    | _ =>
      match parseDecAux t 0 with
      | none => none
      | some n => if n < 2 ^ 31 then some (Int.ofNat n) else none
  | '-' :: t =>
    match t with
    | [] => none
    | _ =>
      match parseDecAux t 0 with
      | none => none
      | some n => if n ≤ 2 ^ 31 then some (-(Int.ofNat n)) else none
  | _ =>
    match parseDecAux cs 0 with
    | none => none
    | some n => if n < 2 ^ 31 then some (Int.ofNat n) else none

def parseI32? (s : String) : Option Int :=
  parseI32chars? s.data

/-- Value of one hexadecimal digit. -/
def hexDigitVal? (c : Char) : Option Nat :=
  if '0' ≤ c ∧ c ≤ '9' then some (c.toNat - 48)
  else if 'a' ≤ c ∧ c ≤ 'f' then some (c.toNat - 87)
  else if 'A' ≤ c ∧ c ≤ 'F' then some (c.toNat - 55)
  else none

def parseHexAux : List Char → Nat → Option Nat
  | [], acc => some acc
  | c :: t, acc =>
    match hexDigitVal? c with
    | none => none
    | some d => parseHexAux t (acc * 16 + d)

/-- Mirrors Rust `u64::from_str_radix(s, 16)`: an optional leading plus sign,
then one or more hexadecimal digits and nothing else (in particular no
whitespace); values not fitting in 64 bits fail. -/
def from_str_radix16_u64 (s : String) : Option Nat :=
  let cs :=
    match s.data with
    | '+' :: t => t
    | cs => cs
  match cs with
  | [] => none
  | _ =>
    match parseHexAux cs 0 with
    | none => none
    | some v => if v < 2 ^ 64 then some v else none

/-! ### Error and status types -/

/-- The errno values used by the handlers in grpc.rs. -/
inductive Errno where
  | EINVAL
  | EIOerr
  | EAGAIN
  | ETIME
  | UnknownErrno
deriving DecidableEq, Repr

/-- gRPC status codes produced at the dispatcher boundary. -/
inductive RpcStatusCode where
  | OK
  | Internal
  | InvalidArgument
  | FailedPrecondition
  | Unavailable
  | DeadlineExceeded
deriving DecidableEq, Repr

/-- Core error type: the `ErrorKind::Nix`/`ErrorKind::ErrorCode` cases of the
rustjail error chain, as produced by grpc.rs. -/
inductive AgentError where
  | Nix (e : Errno)
  | ErrorCode (msg : String)
deriving DecidableEq, Repr

def exceptIsOk {ε α : Type} : Except ε α → Bool
  | .ok _ => true
  | .error _ => false

/-- Mirrors nix `Errno as i32` for the values the worker thread sends on the
RemoveContainer channel. In nix, `UnknownErrno` is the value 0. -/
def errnoCode : Errno → Int
  | .EINVAL => 22
  | .EIOerr => 5
  | .EAGAIN => 11
  | .ETIME => 62
  | .UnknownErrno => 0

/-- Mirrors nix `Errno::from_i32` on the codes above. -/
def errnoFromCode (v : Int) : Errno :=
  if v = 22 then .EINVAL
  else if v = 5 then .EIOerr
  else if v = 11 then .EAGAIN
  else if v = 62 then .ETIME
  else .UnknownErrno

/-! ### Data model: Process, Container, Sandbox -/

/-- The per-process record of rustjail as used by grpc.rs: exec id, pid, the
init flag, the five optional owned file descriptors and the exit code. -/
structure Process where
  exec_id : String
  pid : Int
  init : Bool
  parent_stdin : Option Int
  parent_stdout : Option Int
  parent_stderr : Option Int
  term_master : Option Int
  exit_pipe_r : Option Int
  exit_code : Int
deriving DecidableEq, Repr

/-- The container record: id, init process pid and the process table keyed by
pid (a HashMap in rustjail, modelled as an association list). -/
structure Container where
  id : String
  init_process_pid : Int
  processes : List (Int × Process)
deriving DecidableEq, Repr

/-- The Sandbox registry of sandbox.rs as read and mutated by grpc.rs. -/
structure Sandbox where
  id : String
  hostname : String
  running : Bool
  containers : List (String × Container)
  container_mounts : List (String × List String)
  storages : List (String × Nat)
  mounts : List String
  shared_ipcns_path : String
  shared_utsns_path : String
  sandbox_pid_ns : Bool
  no_pivot_root : Bool
deriving DecidableEq, Repr

/-- The sandbox before CreateSandbox: everything empty, `running` false. -/
def initSandbox : Sandbox :=
  { id := ""
    hostname := ""
    running := false
    containers := []
    container_mounts := []
    storages := []
    mounts := []
    shared_ipcns_path := ""
    shared_utsns_path := ""
    sandbox_pid_ns := false
    no_pivot_root := false }

/-- Modelled from the spec: rustjail `LinuxContainer::get_process(eid)` is not
part of the sources; per the spec it locates the process of the container with
the given exec id. -/
def get_process (c : Container) (eid : String) : Option Process :=
  (c.processes.find? (fun kp => kp.2.exec_id == eid)).map (fun kp => kp.2)

/-- grpc.rs `find_process`: locate a process by container id and exec id; with
`init` set and an empty exec id the init process is looked up by pid. -/
def find_process (s : Sandbox) (cid eid : String) (init : Bool) :
    Except AgentError Process :=
  match alookup cid s.containers with
  | none => .error (.ErrorCode "Invalid container id")
  | some ctr =>
    if init ∧ eid = "" then
      match alookup ctr.init_process_pid ctr.processes with
      | none => .error (.ErrorCode "cannot find init process!")
      | some p => .ok p
    else
      match get_process ctr eid with
      | none => .error (.ErrorCode "Invalid exec id")
      | some p => .ok p

/-! ### WaitProcess (grpc.rs `do_wait_process`) -/

structure WaitProcessResponse where
  status : Int
deriving DecidableEq, Repr

/-- The fd-draining block of `do_wait_process`: each of the five fd slots is
`take`n (cleared to none) and, when present, closed. The returned list is the
sequence of `close` calls in program order. -/
def close_all_fds (p : Process) : Process × List Int :=
  ({ p with
      parent_stdin := none
      parent_stdout := none
      parent_stderr := none
      term_master := none
      exit_pipe_r := none },
   [p.parent_stdin, p.parent_stdout, p.parent_stderr, p.term_master,
    p.exit_pipe_r].filterMap id)

/-- grpc.rs `do_wait_process`. The blocking read of the exit pipe is a pure
side effect (its result is ignored by the source) and is not modelled. The
result carries the response, the new sandbox state and the list of fds closed
by this call. -/
def do_wait_process (s : Sandbox) (cid eid : String) :
    Except AgentError (WaitProcessResponse × Sandbox × List Int) :=
  match find_process s cid eid false with
  | .error e => .error e
  | .ok p0 =>
    let pid := p0.pid
    match alookup cid s.containers with
    | none => .ok (⟨0⟩, s, [])
    | some ctr =>
      match alookup pid ctr.processes with
      | none => .ok (⟨0⟩, s, [])
      | some p =>
        let closed := (close_all_fds p).2
        let ctr' := { ctr with processes := aerase pid ctr.processes }
        .ok (⟨p.exit_code⟩, { s with containers := ainsert cid ctr' s.containers }, closed)

/-! ### SignalProcess (grpc.rs `do_signal_process`, `is_signal_handled`) -/

/-- First line of the status file starting with "SigCgt:". -/
def sigCgtLine? : List String → Option String
  | [] => none
  | l :: t => if ("SigCgt:".data).isPrefixOf l.data then some l else sigCgtLine? t

/-- grpc.rs `is_signal_handled`: reads `/proc/<pid>/status` (the oracle
argument: `none` when the file cannot be opened, otherwise its lines), finds
the `SigCgt:` line, splits it at the colon, parses the second fragment with
`u64::from_str_radix(_, 16)` and tests bit `signum - 1`. Any failure along the
way yields `false`. -/
def is_signal_handled (statusLines : Option (List String)) (signum : Nat) : Bool :=
  let sig_mask := 2 ^ (signum - 1)
  match statusLines with
  | none => false
  | some lines =>
    match sigCgtLine? lines with
    | none => false
    | some line =>
      let mask_vec := (splitOnChar ':' line.data).map (fun w => String.mk w)
      if mask_vec.length ≠ 2 then false
      else
        match from_str_radix16_u64 (mask_vec.getD 1 "") with
        | none => false
        | some mask => Nat.land mask sig_mask == sig_mask

/-- The signal actually delivered by `do_signal_process` once the target
process is located (grpc.rs lines 245-252): SIGTERM (15) to an init process is
promoted to SIGKILL (9) when `is_signal_handled` is false. -/
def signal_to_send (p_init : Bool) (signum : Nat)
    (statusLines : Option (List String)) : Nat :=
  if p_init ∧ signum = 15 ∧ is_signal_handled statusLines signum = false then 9
  else signum

/-- The SigCgt mask as the specification describes it: the hexadecimal value
of the text after the colon of the `SigCgt:` line of `/proc/<pid>/status`,
with the field-separator whitespace ignored. -/
def spec_sigcgt_mask (statusLines : Option (List String)) : Option Nat :=
  match statusLines with
  | none => none
  | some lines =>
    match sigCgtLine? lines with
    | none => none
    | some line => from_str_radix16_u64 (String.mk (trimChars (line.data.drop 7)))

/-! ### OCI spec and namespace rewriting (grpc.rs `update_container_namespaces`) -/

def NSTYPEIPC : String := "ipc"
def NSTYPEUTS : String := "uts"
def NSTYPEPID : String := "pid"

structure LinuxNamespace where
  nsType : String
  Path : String
deriving DecidableEq, Repr

structure Linux where
  Namespaces : List LinuxNamespace
deriving DecidableEq, Repr

/-- The protobuf OCI `Spec` fields consumed by grpc.rs: the optional `Process`
section (its contents are only handed to rustjail, so presence suffices) and
the `Linux` section with its namespace list. -/
structure Spec where
  ProcessSec : Option Unit
  Linux : Option Linux
deriving DecidableEq, Repr

/-- One pass of the namespace sweep: ipc and uts entries get their path
overwritten with the sandbox shared-namespace path; every other type
(including pid) is left untouched. -/
def rewrite_ns (sb : Sandbox) (ns : LinuxNamespace) : LinuxNamespace :=
  if ns.nsType = NSTYPEIPC then { ns with Path := sb.shared_ipcns_path }
  else if ns.nsType = NSTYPEUTS then { ns with Path := sb.shared_utsns_path }
  else ns

/-- grpc.rs `update_container_namespaces`. -/
def update_container_namespaces (sb : Sandbox) (spec : Spec) : Except AgentError Spec :=
  match spec.Linux with
  | none => .error (.ErrorCode "Spec didn\x27t container linux field")
  | some linux =>
    let pidNs := linux.Namespaces.any (fun ns => ns.nsType == NSTYPEPID)
    let nss := linux.Namespaces.map (rewrite_ns sb)
    let nss' :=
      if pidNs = false ∧ sb.sandbox_pid_ns = false then
        nss ++ [{ nsType := NSTYPEPID, Path := "" }]
      else nss
    .ok { spec with Linux := some { Namespaces := nss' } }

/-- The claim-side characterization of the namespace list produced by
`update_container_namespaces`: the sweep applied pointwise, with one empty
pid entry appended exactly when no pid entry was present and the sandbox has
no shared pid namespace. -/
def rewritten_namespaces (sb : Sandbox) (l : Linux) : List LinuxNamespace :=
  l.Namespaces.map (rewrite_ns sb) ++
    (if l.Namespaces.any (fun ns => ns.nsType == NSTYPEPID) = false
        ∧ sb.sandbox_pid_ns = false
     then [{ nsType := NSTYPEPID, Path := "" }] else [])

/-! ### Stdio read path (grpc.rs `read_stream`, `do_read_stream`) -/

/-- Outcome of the single `unistd::read` call: either the bytes the kernel
returned (length 0 means the peer closed) or an errno. -/
inductive ReadOutcome where
  | bytes (bs : List Nat)
  | fails (e : Errno)
deriving DecidableEq, Repr

/-- grpc.rs `read_stream`: one read into a buffer of size `l`; length 0 is the
"read  meet eof" core error, EAGAIN is an empty success, other errnos
propagate. The buffer size `l` only bounds the kernel result and is otherwise
unused. -/
def read_stream (l : Nat) (outcome : ReadOutcome) : Except AgentError (List Nat) :=
  match outcome with
  | .bytes bs =>
    if bs.length = 0 then .error (.ErrorCode "read  meet eof")
    else .ok bs
  | .fails e =>
    if e = Errno.EAGAIN then .ok []
    else .error (.Nix e)

/-- The fd selection of `do_read_stream`: pty master if present, else the
parent stdout or stderr pipe according to the flag. -/
def select_read_fd (p : Process) (stdout : Bool) : Option Int :=
  if p.term_master.isSome then p.term_master
  else if stdout then p.parent_stdout
  else p.parent_stderr

/-- grpc.rs `do_read_stream`. -/
def do_read_stream (s : Sandbox) (cid eid : String) (stdout : Bool) (l : Nat)
    (outcome : ReadOutcome) : Except AgentError (List Nat) :=
  match find_process s cid eid false with
  | .error e => .error e
  | .ok p =>
    match select_read_fd p stdout with
    | none => .error (.Nix .EINVAL)
    | some _fd => read_stream l outcome

/-! ### ListProcesses (grpc.rs `list_processes`) -/

inductive LPResult where
  | ok (process_list : String)
  | invalidArg
  | panicked
deriving DecidableEq, Repr

/-- serde_json serialization of the pid vector. -/
def jsonOfPids (pids : List Int) : String :=
  "[" ++ String.intercalate "," (pids.map toString) ++ "]"

/-- The inner loop `for p in &pids { if pid == *p { result.push_str(line) } }`:
the line is appended once per matching element of `pids`. -/
def appendMatches (pids : List Int) (pid : Int) (line : String) (acc : String) : String :=
  pids.foldl (fun a p => if pid = p then a ++ line else a) acc

/-- The body-line loop of the "table" branch: blank lines and lines with too
few fields are skipped; a pid field that does not parse is an `unwrap` panic
(`none`); otherwise the line is appended for each matching pid. -/
def tableLines (pidIdx : Nat) (pids : List Int) : List String → String → Option String
  | [], acc => some acc
  | l :: ls, acc =>
    if trimChars l.data = [] then tableLines pidIdx pids ls acc
    else
      let fields := splitWS l
      if fields.length < pidIdx + 1 then tableLines pidIdx pids ls acc
      else
        match parseI32? (String.mk (trimChars (fields.getD pidIdx "").data)) with
        | none => none
        | some pid => tableLines pidIdx pids ls (appendMatches pids pid l acc)

/-- The argument defaulting of the "table" branch: empty `args` become
`["-ef"]` before `ps` is spawned. The `ps` output itself is the oracle
`psOut`, so in this model the arguments have no further effect. -/
def effective_ps_args (args : List String) : List String :=
  if args.isEmpty then ["-ef"] else args

/-- grpc.rs `list_processes`, abstracted over the container pid list (from
rustjail `processes()`) and the raw `ps` output. A missing `PID` header column
or an unparseable pid field is an `unwrap` panic. -/
def list_processes (pids : List Int) (format : String) (args : List String)
    (psOut : String) : LPResult :=
  if format = "table" then
    match (splitWS ((splitLines psOut).headD "")).findIdx? (fun f => f == "PID") with
    | none => .panicked
    | some pidIdx =>
      match tableLines pidIdx pids ((splitLines psOut).drop 1)
          ((splitLines psOut).headD "") with
      | none => .panicked
      | some body => .ok body
  else if format = "json" then .ok (jsonOfPids pids)
  else .invalidArg

/-- The claim-side characterization of the "table" filter: a body line is
included exactly when it is not blank, has a pid column, and that column
parses to a pid of the container. -/
def spec_line_included (pidIdx : Nat) (pids : List Int) (l : String) : Bool :=
  if trimChars l.data = [] then false
  else
    let fields := splitWS l
    if fields.length < pidIdx + 1 then false
    else
      match parseI32? (String.mk (trimChars (fields.getD pidIdx "").data)) with
      | none => false
      | some pid => pids.contains pid

/-! ### CopyFile (grpc.rs `do_copy_file`, `copy_file`) -/

/-- A regular file of the modelled filesystem: content bytes, mode, owner. -/
structure FileState where
  content : List Nat
  mode : Nat
  uid : Nat
  gid : Nat
deriving DecidableEq, Repr

/-- The filesystem as a map from absolute paths (component lists) to files.
Directories and their modes are not modelled. -/
abbrev FS := List (List String × FileState)

structure CopyFileRequest where
  path : List String
  file_size : Int
  file_mode : Nat
  dir_mode : Nat
  uid : Nat
  gid : Nat
  offset : Nat
  data : List Nat
deriving DecidableEq, Repr

/-- `CONTAINER_BASE` = "/run/kata-containers" as path components. -/
def CONTAINER_BASE : List String := ["run", "kata-containers"]

/-- Mirrors `File::write_all_at`: overwrite `data` at `offset`, zero-filling a
hole when the offset is past the end, preserving bytes after the write. -/
def writeAt (content : List Nat) (offset : Nat) (data : List Nat) : List Nat :=
  (content.take offset ++ List.replicate (offset - content.length) 0)
    ++ data ++ content.drop (offset + data.length)

/-- Index (from the start) of the last dot of a file name that is not its
first character; mirrors where Rust `Path::set_extension` truncates. -/
def lastDotAux : List Char → Nat → Option Nat → Option Nat
  | [], _, best => best
  | c :: t, i, best =>
    lastDotAux t (i + 1) (if c = '.' ∧ 0 < i then some i else best)

/-- Mirrors `PathBuf::set_extension("tmp")` on the file name: the extension
after the last dot (a leading dot marks a hidden file, not an extension) is
replaced by `tmp`; a name with no extension gets `.tmp` appended. -/
def set_extension_tmp (name : String) : String :=
  match lastDotAux name.data 0 none with
  | none => String.mk (name.data ++ ".tmp".data)
  | some i => String.mk (name.data.take i ++ ".tmp".data)

/-- The staging path of `do_copy_file`: the sibling of `path` named by
`PathBuf::set_extension("tmp")` on its file name. -/
def tmp_path (p : List String) : List String :=
  p.dropLast ++ [set_extension_tmp (p.getLastD "")]

/-- The staging file as opened by `do_copy_file` (create, no truncate): the
existing tmp file, or an empty fresh one. -/
def tmp_cur (fs : FS) (req : CopyFileRequest) : FileState :=
  (alookup (tmp_path req.path) fs).getD { content := [], mode := 0, uid := 0, gid := 0 }

/-- The staging-file content after `write_all_at(data, offset)`. -/
def staged_write (fs : FS) (req : CopyFileRequest) : List Nat :=
  writeAt (tmp_cur fs req).content req.offset req.data

/-- grpc.rs `do_copy_file` over the modelled filesystem. Steps whose only
effect is on directories (create_dir_all, chmod of the parent) are not
modelled; I/O errors of the modelled steps do not occur in the model, so the
only error is the path-prefix check. When the staged size differs from
file_size the tmp write is the whole effect; when it matches, chmod and chown
are applied to the tmp file and the rename moves it onto the final path. -/
def do_copy_file (fs : FS) (req : CopyFileRequest) : Except AgentError FS :=
  if (CONTAINER_BASE.isPrefixOf req.path) = false then .error (.Nix .EINVAL)
  else
    if ((staged_write fs req).length : Int) ≠ req.file_size then
      .ok (ainsert (tmp_path req.path)
            { tmp_cur fs req with content := staged_write fs req } fs)
    else
      .ok (ainsert req.path
            { content := staged_write fs req, mode := req.file_mode,
              uid := req.uid, gid := req.gid }
            (aerase (tmp_path req.path)
              (ainsert (tmp_path req.path)
                { content := staged_write fs req, mode := req.file_mode,
                  uid := req.uid, gid := req.gid }
                (ainsert (tmp_path req.path)
                  { tmp_cur fs req with content := staged_write fs req } fs))))

/-- The `copy_file` RPC dispatcher: every `do_copy_file` error is reported as
status `Internal` (grpc.rs lines 1290-1299). -/
def copy_file (fs : FS) (req : CopyFileRequest) : RpcStatusCode × FS :=
  match do_copy_file fs req with
  | .error _ => (.Internal, fs)
  | .ok fs' => (.OK, fs')

/-! ### CreateSandbox (grpc.rs `create_sandbox`) -/

structure CreateSandboxRequest where
  sandbox_id : String
  hostname : String
deriving DecidableEq, Repr

/-- Modelled from the spec: `Sandbox::setup_shared_namespaces` lives in
sandbox.rs, which is not part of the sources. Per the spec it creates the
persistent IPC and UTS namespaces under /var/run/sandbox-ns and records their
paths on the sandbox; its fallibility is the oracle argument. -/
def setup_shared_namespaces (s : Sandbox) (res : Except String Unit) :
    Except String Sandbox :=
  match res with
  | .error e => .error e
  | .ok _ =>
    .ok { s with
            shared_ipcns_path := "/var/run/sandbox-ns/ipc"
            shared_utsns_path := "/var/run/sandbox-ns/uts" }

/-- grpc.rs `create_sandbox` handler: purge of /run/kata-containers (a pure
filesystem effect, not modelled), then hostname, then `running := true`, then
the sandbox id when non-empty, then shared-namespace setup, then storages;
either failure replies FailedPrecondition with the state as it stands. -/
def create_sandbox (s : Sandbox) (req : CreateSandboxRequest)
    (setupRes : Except String Unit) (storageRes : Except String (List String)) :
    RpcStatusCode × Sandbox :=
  let s1 := { s with hostname := req.hostname, running := true }
  let s2 := if req.sandbox_id ≠ "" then { s1 with id := req.sandbox_id } else s1
  match setup_shared_namespaces s2 setupRes with
  | .error _ => (.FailedPrecondition, s2)
  | .ok s3 =>
    match storageRes with
    | .error _ => (.FailedPrecondition, s3)
    | .ok m => (.OK, { s3 with mounts := m })

/-- grpc.rs `do_start_container`: look the container up and call rustjail
`exec()` (its outcome is the oracle). The handler never reads `running`. -/
def do_start_container (s : Sandbox) (cid : String)
    (execRes : Except AgentError Unit) : Except AgentError Unit :=
  match alookup cid s.containers with
  | none => .error (.Nix .EINVAL)
  | some _ => execRes

/-! ### CreateContainer (grpc.rs `do_create_container`) -/

structure CreateContainerRequest where
  container_id : String
  exec_id : String
  OCI : Option Spec
deriving DecidableEq, Repr

/-- Outcomes of the external steps of `do_create_container`, in program
order: PCI rescan, device updates, storage mounting (yielding the mount
points), bundle setup, rustjail container construction, init-process
construction, and `start`. -/
structure CreateOracles where
  rescanRes : Except AgentError Unit
  devicesRes : Except AgentError Unit
  storagesRes : Except AgentError (List String)
  bundleRes : Except AgentError Unit
  newCtrRes : Except AgentError Unit
  newProcRes : Except AgentError Process
  startRes : Except AgentError Unit

/-- grpc.rs `do_create_container`. The `container_mounts` insertion happens
right after `add_storages` succeeds, before namespace rewriting, bundle setup
and container construction, so any later failure keeps the entry. -/
def do_create_container (s : Sandbox) (req : CreateContainerRequest)
    (o : CreateOracles) : Except AgentError Unit × Sandbox :=
  match req.OCI with
  | none => (.error (.Nix .EINVAL), s)
  | some oci =>
    match oci.ProcessSec with
    | none => (.error (.Nix .EINVAL), s)
    | some _ =>
      match o.rescanRes with
      | .error e => (.error e, s)
      | .ok _ =>
        match o.devicesRes with
        | .error e => (.error e, s)
        | .ok _ =>
          match o.storagesRes with
          | .error e => (.error e, s)
          | .ok m =>
            let s1 := { s with
                          container_mounts := ainsert req.container_id m s.container_mounts }
            match update_container_namespaces s1 oci with
            | .error e => (.error e, s1)
            | .ok _oci' =>
              match o.bundleRes with
              | .error e => (.error e, s1)
              | .ok _ =>
                match o.newCtrRes with
                | .error e => (.error e, s1)
                | .ok _ =>
                  match o.newProcRes with
                  | .error e => (.error e, s1)
                  | .ok p =>
                    match o.startRes with
                    | .error e => (.error e, s1)
                    | .ok _ =>
                      let ctr : Container :=
                        { id := req.container_id
                          init_process_pid := p.pid
                          processes := [(p.pid, p)] }
                      (.ok (),
                       { s1 with containers := ainsert req.container_id ctr s1.containers })

/-- The decidable form of the registry invariant: every key of
`container_mounts` has a container of the same id. -/
def mounts_inv (s : Sandbox) : Bool :=
  (s.container_mounts.map (fun kv => kv.1)).all
    (fun k => (alookup k s.containers).isSome)

/-! ### RemoveContainer (grpc.rs `do_remove_container`, `remove_container`) -/

/-- Modelled from the spec: `Sandbox::unset_and_remove_sandbox_storage` lives
in sandbox.rs, not in the sources. Per the spec it drops one reference of the
storage at the mount point, unmounting and removing the entry when the
refcount reaches zero. -/
def unset_and_remove_sandbox_storage (s : Sandbox) (m : String) : Sandbox :=
  match alookup m s.storages with
  | none => s
  | some n =>
    if n ≤ 1 then { s with storages := aerase m s.storages }
    else { s with storages := ainsert m (n - 1) s.storages }

/-- Outcomes of the external steps of RemoveContainer: the rustjail
`destroy()`, whether the channel delivered the worker result before the
timeout fired, whether the worker `join` succeeded, and `remove_mounts`. -/
structure RemoveOracles where
  destroyRes : Except AgentError Unit
  recvArrived : Bool
  joinOk : Bool
  removeMountsRes : Except AgentError Unit

/-- The post-destroy cleanup shared by both RemoveContainer paths
(grpc.rs lines 194-210): remove the mounts of the container, release the
sandbox storages among them, then delete the `container_mounts` entry and the
container entry in the same critical section. -/
def cleanup_container (s : Sandbox) (cid : String)
    (removeMountsRes : Except AgentError Unit) : Except AgentError Unit × Sandbox :=
  match alookup cid s.container_mounts with
  | some mounts =>
    match removeMountsRes with
    | .error e => (.error e, s)
    | .ok _ =>
      let cmounts := mounts.filter (fun m => (alookup m s.storages).isSome)
      let s1 := cmounts.foldl unset_and_remove_sandbox_storage s
      let s2 := { s1 with container_mounts := aerase cid s1.container_mounts }
      (.ok (), { s2 with containers := aerase cid s2.containers })
  | none =>
    let s2 := { s with container_mounts := aerase cid s.container_mounts }
    (.ok (), { s2 with containers := aerase cid s2.containers })

/-- grpc.rs `do_remove_container`. With `timeout = 0` the destroy runs under
the lock; otherwise a worker thread destroys and sends an errno code on a
channel while the dispatcher waits `timeout` seconds (`recvArrived` is whether
`recv_timeout` returned in time); an expired wait is the ETIME error. Note the
worker encodes a destroy failure as `UnknownErrno as i32 = 0`, which the
dispatcher treats as success. -/
def do_remove_container (s : Sandbox) (cid : String) (timeout : Nat)
    (o : RemoveOracles) : Except AgentError Unit × Sandbox :=
  if timeout = 0 then
    match alookup cid s.containers with
    | none => (.error (.Nix .EINVAL), s)
    | some _ =>
      match o.destroyRes with
      | .error e => (.error e, s)
      | .ok _ => cleanup_container s cid o.removeMountsRes
  else
    if o.recvArrived = false then (.error (.Nix .ETIME), s)
    else
      let val : Int :=
        match alookup cid s.containers with
        | none => errnoCode .EINVAL
        | some _ =>
          match o.destroyRes with
          | .error _ => errnoCode .UnknownErrno
          | .ok _ => 0
      if val ≠ 0 then (.error (.Nix (errnoFromCode val)), s)
      else if o.joinOk = false then (.error (.Nix .UnknownErrno), s)
      else cleanup_container s cid o.removeMountsRes

/-- The `remove_container` RPC dispatcher: every `do_remove_container` error
is reported as status `Internal` (grpc.rs lines 465-486). -/
def remove_container (s : Sandbox) (cid : String) (timeout : Nat)
    (o : RemoveOracles) : RpcStatusCode × Sandbox :=
  match do_remove_container s cid timeout o with
  | (.error _, s') => (.Internal, s')
  | (.ok _, s') => (.OK, s')

/-! ### Namespace persistence (namespace.rs) -/

inductive NamespaceType where
  | IPC
  | UTS
  | PID
deriving DecidableEq, Repr

def NamespaceType.get : NamespaceType → String
  | .IPC => "ipc"
  | .UTS => "uts"
  | .PID => "pid"

inductive CloneFlag where
  | CLONE_NEWIPC
  | CLONE_NEWUTS
  | CLONE_NEWPID
deriving DecidableEq, Repr

def NamespaceType.get_flags : NamespaceType → CloneFlag
  | .IPC => .CLONE_NEWIPC
  | .UTS => .CLONE_NEWUTS
  | .PID => .CLONE_NEWPID

structure Namespace where
  path : String
  persistent_ns_dir : String
  ns_type : NamespaceType
deriving DecidableEq, Repr

def PERSISTENT_NS_DIR : String := "/var/run/sandbox-ns"

def Namespace.new : Namespace :=
  { path := "", persistent_ns_dir := PERSISTENT_NS_DIR, ns_type := .IPC }

def Namespace.as_ipc (n : Namespace) : Namespace :=
  { n with ns_type := .IPC }

def Namespace.as_uts (n : Namespace) : Namespace :=
  { n with ns_type := .UTS }

def Namespace.set_root_dir (n : Namespace) (dir : String) : Namespace :=
  { n with persistent_ns_dir := dir }

/-- The public builder surface of `Namespace`: `as_ipc`, `as_uts`,
`set_root_dir`. There is no builder selecting the PID type. -/
inductive BuilderOp where
  | asIpc
  | asUts
  | setRootDir (dir : String)

def applyBuilder (n : Namespace) : BuilderOp → Namespace
  | .asIpc => n.as_ipc
  | .asUts => n.as_uts
  | .setRootDir d => n.set_root_dir d

def buildNamespace (ops : List BuilderOp) : Namespace :=
  ops.foldl applyBuilder Namespace.new

/-- namespace.rs `get_current_thread_ns_path`. -/
def get_current_thread_ns_path (pid tid : Nat) (ns_type : String) : String :=
  "/proc/" ++ toString pid ++ "/task/" ++ toString tid ++ "/ns/" ++ ns_type

/-- Modelled from the spec: the `FLAGS` table of crate::mount is not in the
sources; per the spec the "rbind" entry is the recursive bind mount,
MS_BIND | MS_REC. -/
def FLAGS_rbind : List String := ["MS_BIND", "MS_REC"]

/-- Which thread performs an effect: the dispatcher thread calling `setup`, or
the worker thread it spawns. -/
inductive Actor where
  | dispatcher
  | worker
deriving DecidableEq, Repr

/-- The externally visible effects of `Namespace.setup`, tagged with the
thread that performs them. -/
inductive Action where
  | create_dir (dir : String) (a : Actor)
  | create_file (p : String) (a : Actor)
  | open_file (p : String) (a : Actor)
  | unshare_ns (f : CloneFlag) (a : Actor)
  | bind_mount (src dst fstype : String) (flags : List String) (a : Actor)
deriving DecidableEq, Repr

/-- Outcomes of the fallible external steps of `Namespace.setup`, in program
order; `none` means success, `some err` the error text of the step. -/
structure SetupOracles where
  create_dir_err : Option String
  create_file_err : Option String
  open_origin_err : Option String
  unshare_err : Option String
  mount_err : Option String
  join_err : Option String
deriving DecidableEq, Repr

/-- namespace.rs `Namespace::setup`: create the persistent dir and the target
file on the dispatcher thread, then spawn a worker that opens its own ns file,
unshares with the flag of the type and recursive-bind-mounts its ns inode onto
the target; join and propagate every error as a string. `pid`/`workerTid`
identify the process and the worker thread. Returns the result and the trace
of effects. -/
def Namespace.setup (self : Namespace) (pid workerTid : Nat) (o : SetupOracles) :
    Except String Namespace × List Action :=
  match o.create_dir_err with
  | some err => (.error err, [.create_dir self.persistent_ns_dir .dispatcher])
  | none =>
    let tr0 := [Action.create_dir self.persistent_ns_dir .dispatcher]
    let new_ns_path := self.persistent_ns_dir ++ "/" ++ self.ns_type.get
    match o.create_file_err with
    | some err => (.error err, tr0 ++ [.create_file new_ns_path .dispatcher])
    | none =>
      let tr1 := tr0 ++ [Action.create_file new_ns_path .dispatcher]
      let self1 := { self with path := new_ns_path }
      let origin := get_current_thread_ns_path pid workerTid self.ns_type.get
      let wres_wtr : Except String Unit × List Action :=
        match o.open_origin_err with
        | some err => (.error err, [.open_file origin .worker])
        | none =>
          match o.unshare_err with
          | some err =>
            (.error err,
             [.open_file origin .worker, .unshare_ns self.ns_type.get_flags .worker])
          | none =>
            match o.mount_err with
            | some err =>
              (.error ("Failed to mount " ++ origin ++ " to " ++ new_ns_path
                         ++ " with err:" ++ err),
               [.open_file origin .worker, .unshare_ns self.ns_type.get_flags .worker,
                .bind_mount origin new_ns_path "none" FLAGS_rbind .worker])
            | none =>
              (.ok (),
               [.open_file origin .worker, .unshare_ns self.ns_type.get_flags .worker,
                .bind_mount origin new_ns_path "none" FLAGS_rbind .worker])
      let tr := tr1 ++ wres_wtr.2
      match o.join_err with
      | some jerr => (.error ("Failed to join thread " ++ jerr ++ "!"), tr)
      | none =>
        match wres_wtr.1 with
        | .error err => (.error err, tr)
        | .ok _ => (.ok self1, tr)

end KataAgent

namespace KataAgent

/-! ### Sample inputs used by witnesses and counterexamples -/

def procSample : Process :=
  { exec_id := "e1", pid := 101, init := true, parent_stdin := none,
    parent_stdout := none, parent_stderr := none, term_master := none,
    exit_pipe_r := none, exit_code := 0 }

def specOkSample : Spec :=
  { ProcessSec := some (), Linux := some { Namespaces := [] } }

def specNoLinux : Spec :=
  { ProcessSec := some (), Linux := none }

def createOraclesOk : CreateOracles :=
  { rescanRes := .ok (), devicesRes := .ok (), storagesRes := .ok ["/mp1"],
    bundleRes := .ok (), newCtrRes := .ok (), newProcRes := .ok procSample,
    startRes := .ok () }

def reqCreateOk : CreateContainerRequest :=
  { container_id := "c1", exec_id := "e1", OCI := some specOkSample }

def reqCreateNoLinux : CreateContainerRequest :=
  { container_id := "c1", exec_id := "e1", OCI := some specNoLinux }

def ctrSample : Container :=
  { id := "c1", init_process_pid := 101, processes := [(101, procSample)] }

def sCtr : Sandbox :=
  { initSandbox with containers := [("c1", ctrSample)] }

def sRemove : Sandbox :=
  { initSandbox with
      containers := [("c1", ctrSample)]
      container_mounts := [("c1", ["/mp1"])]
      storages := [("/mp1", 1)] }

def removeOraclesOk : RemoveOracles :=
  { destroyRes := .ok (), recvArrived := true, joinOk := true,
    removeMountsRes := .ok () }

def removeOraclesTimeout : RemoveOracles :=
  { destroyRes := .ok (), recvArrived := false, joinOk := true,
    removeMountsRes := .ok () }

def procWait : Process :=
  { exec_id := "e1", pid := 7, init := false, parent_stdin := some 10,
    parent_stdout := some 11, parent_stderr := some 12, term_master := none,
    exit_pipe_r := some 13, exit_code := 3 }

def ctrWait : Container :=
  { id := "c1", init_process_pid := 7, processes := [(7, procWait)] }

def sWait : Sandbox :=
  { initSandbox with containers := [("c1", ctrWait)] }

def procNoFd : Process :=
  { exec_id := "a", pid := 21, init := false, parent_stdin := none,
    parent_stdout := none, parent_stderr := none, term_master := none,
    exit_pipe_r := none, exit_code := 0 }

def procTty : Process :=
  { exec_id := "b", pid := 22, init := false, parent_stdin := none,
    parent_stdout := none, parent_stderr := none, term_master := some 5,
    exit_pipe_r := none, exit_code := 0 }

def ctrRead : Container :=
  { id := "c1", init_process_pid := 21,
    processes := [(21, procNoFd), (22, procTty)] }

def sRead : Sandbox :=
  { initSandbox with containers := [("c1", ctrRead)] }

def sbNs : Sandbox :=
  { initSandbox with
      shared_ipcns_path := "/var/run/sandbox-ns/ipc"
      shared_utsns_path := "/var/run/sandbox-ns/uts" }

def linuxNsSample : Linux :=
  { Namespaces :=
      [{ nsType := "ipc", Path := "/host/ipc" },
       { nsType := "uts", Path := "/host/uts" },
       { nsType := "network", Path := "/host/net" }] }

def specNsSample : Spec :=
  { ProcessSec := some (), Linux := some linuxNsSample }

def setupOraclesOk : SetupOracles :=
  { create_dir_err := none, create_file_err := none, open_origin_err := none,
    unshare_err := none, mount_err := none, join_err := none }

def psOutSample : String :=
  "UID PID CMD\nroot 1 init\nroot 42 bash\nroot 99 sh"

def copyReqBadPath : CopyFileRequest :=
  { path := ["tmp", "f"], file_size := 8, file_mode := 420, dir_mode := 448,
    uid := 0, gid := 0, offset := 0, data := [65, 66, 67, 68] }

def copyReqChunk1 : CopyFileRequest :=
  { path := ["run", "kata-containers", "x", "f"], file_size := 8,
    file_mode := 420, dir_mode := 448, uid := 5, gid := 6, offset := 0,
    data := [65, 66, 67, 68] }

def copyReqChunk2 : CopyFileRequest :=
  { path := ["run", "kata-containers", "x", "f"], file_size := 8,
    file_mode := 420, dir_mode := 448, uid := 5, gid := 6, offset := 4,
    data := [69, 70, 71, 72] }

end KataAgent

namespace KataAgent

/-! ### Association-list lemmas -/

theorem alookup_ainsert_self {κ α : Type} [DecidableEq κ] (k : κ) (v : α)
    (l : List (κ × α)) : alookup k (ainsert k v l) = some v := by
  induction l with
  | nil => simp [ainsert, alookup]
  | cons h t ih =>
    obtain ⟨k', v'⟩ := h
    by_cases hk : k' = k
    · simp [ainsert, hk, alookup]
    · simp [ainsert, hk, alookup, ih]

theorem alookup_ainsert_ne {κ α : Type} [DecidableEq κ] {k k' : κ} (v : α)
    (l : List (κ × α)) (h : k' ≠ k) :
    alookup k' (ainsert k v l) = alookup k' l := by
  induction l with
  | nil => simp [ainsert, alookup, Ne.symm h]
  | cons hd t ih =>
    obtain ⟨k'', v''⟩ := hd
    by_cases hk : k'' = k
    · subst hk
      have h1 : ¬ (k'' = k') := fun hh => h (hh ▸ rfl)
      simp [ainsert, alookup, h1]
    · simp only [ainsert, if_neg hk, alookup]
      by_cases h2 : k'' = k'
      · simp [h2]
      · simp [h2, ih]

theorem alookup_aerase_self {κ α : Type} [DecidableEq κ] (k : κ)
    (l : List (κ × α)) : alookup k (aerase k l) = none := by
  induction l with
  | nil => simp [aerase, alookup]
  | cons hd t ih =>
    obtain ⟨k', v'⟩ := hd
    by_cases hk : k' = k
    · simp [aerase, hk, ih]
    · simp [aerase, hk, alookup, ih]

theorem mem_of_mem_aerase {κ α : Type} [DecidableEq κ] {k : κ} {x : κ × α}
    {l : List (κ × α)} (h : x ∈ aerase k l) : x ∈ l ∧ x.1 ≠ k := by
  induction l with
  | nil => simp [aerase] at h
  | cons hd t ih =>
    obtain ⟨k', v'⟩ := hd
    by_cases hk : k' = k
    · simp only [aerase, if_pos hk] at h
      obtain ⟨h1, h2⟩ := ih h
      exact ⟨List.mem_cons_of_mem _ h1, h2⟩
    · simp only [aerase, if_neg hk] at h
      rcases List.mem_cons.mp h with h1 | h1
      · subst h1
        exact ⟨List.mem_cons_self _ _, hk⟩
      · obtain ⟨h2, h3⟩ := ih h1
        exact ⟨List.mem_cons_of_mem _ h2, h3⟩

theorem alookup_of_mem_nodup {κ α : Type} [DecidableEq κ] {l : List (κ × α)}
    {k : κ} {v : α} (hnd : (l.map Prod.fst).Nodup) (hm : (k, v) ∈ l) :
    alookup k l = some v := by
  induction l with
  | nil => simp at hm
  | cons hd t ih =>
    obtain ⟨k', v'⟩ := hd
    simp only [List.map_cons, List.nodup_cons] at hnd
    rcases List.mem_cons.mp hm with h1 | h1
    · injection h1 with h2 h3
      subst h2
      subst h3
      simp [alookup]
    · have hk : k' ≠ k := by
        intro hkk
        subst hkk
        exact hnd.1 (List.mem_map.mpr ⟨(k', v), h1, rfl⟩)
      simp [alookup, hk, ih hnd.2 h1]

theorem mem_keys_ainsert {κ α : Type} [DecidableEq κ] {k' k : κ} {v : α}
    {l : List (κ × α)} (h : k' ∈ (ainsert k v l).map Prod.fst) :
    k' = k ∨ k' ∈ l.map Prod.fst := by
  induction l with
  | nil => simp [ainsert] at h; simp [h]
  | cons hd t ih =>
    obtain ⟨k'', v''⟩ := hd
    by_cases hk : k'' = k
    · simp only [ainsert, if_pos hk, List.map_cons, List.mem_cons] at h
      rcases h with h | h
      · exact Or.inl h
      · subst hk; exact Or.inr (by simpa using Or.inr h)
    · simp only [ainsert, if_neg hk, List.map_cons, List.mem_cons] at h
      rcases h with h | h
      · exact Or.inr (by simp [h])
      · rcases ih h with h1 | h1
        · exact Or.inl h1
        · exact Or.inr (by simp [h1])

end KataAgent

namespace KataAgent

/-- Claim C3 (code bug): with the real `/proc/<pid>/status` format the
SigCgt field is separated from the colon by a tab, so `u64::from_str_radix`
fails, `is_signal_handled` returns false, and SIGTERM to init is promoted to
SIGKILL even though bit 14 of the SigCgt mask 0x4000 is set, i.e. even though
the claim requires SIGTERM to be delivered unchanged. -/
theorem sigterm_promotion_bug :
    signal_to_send true 15 (some ["SigCgt:\t0000000000004000"]) = 9 ∧
    spec_sigcgt_mask (some ["SigCgt:\t0000000000004000"]) = some 16384 ∧
    Nat.testBit 16384 (15 - 1) = true ∧
    is_signal_handled (some ["SigCgt:\t0000000000004000"]) 15 = false := by
  decide

/-- Claim C5 (counterexample): with a registered container and a destroy that
does not finish within the 1-second timeout, the RPC returns status Internal,
not DeadlineExceeded: the dispatcher maps every `do_remove_container` error to
Internal. -/
theorem remove_container_timeout_counterexample :
    (remove_container sCtr "c1" 1 removeOraclesTimeout).1 = RpcStatusCode.Internal ∧
    (do_remove_container sCtr "c1" 1 removeOraclesTimeout).1
        = .error (.Nix .ETIME) ∧
    RpcStatusCode.Internal ≠ RpcStatusCode.DeadlineExceeded := by
  refine ⟨rfl, rfl, by decide⟩

/-- Claim C5 (amended): for RemoveContainer with a non-zero timeout, when the
channel wait expires the handler fails with the ETIME errno and leaves the
registries untouched, and the dispatcher reports status Internal (not
DeadlineExceeded); the worker thread is not joined on this path. -/
theorem remove_container_timeout_behavior (s : Sandbox) (cid : String)
    (timeout : Nat) (o : RemoveOracles) (ht : timeout ≠ 0)
    (hr : o.recvArrived = false) :
    do_remove_container s cid timeout o = (.error (.Nix .ETIME), s) ∧
    remove_container s cid timeout o = (.Internal, s) := by
  have h1 : do_remove_container s cid timeout o = (.error (.Nix .ETIME), s) := by
    unfold do_remove_container
    simp [ht, hr]
  exact ⟨h1, by unfold remove_container; rw [h1]⟩

/-- Witness for the amended C5 theorem at a concrete input. -/
theorem remove_container_timeout_witness :
    do_remove_container sCtr "c1" 2 removeOraclesTimeout
        = (.error (.Nix .ETIME), sCtr) ∧
    remove_container sCtr "c1" 2 removeOraclesTimeout = (.Internal, sCtr) :=
  remove_container_timeout_behavior sCtr "c1" 2 removeOraclesTimeout
    (by decide) (by decide)

end KataAgent

namespace KataAgent

/-- Claim C6 (counterexample): a CopyFile whose path does not begin with
/run/kata-containers fails with status Internal, not InvalidArgument: the
handler produces the EINVAL core error but the dispatcher maps every
`do_copy_file` error to Internal. -/
theorem copy_file_status_counterexample :
    copy_file [] copyReqBadPath = (RpcStatusCode.Internal, []) ∧
    do_copy_file [] copyReqBadPath = .error (.Nix .EINVAL) ∧
    RpcStatusCode.Internal ≠ RpcStatusCode.InvalidArgument := by
  refine ⟨rfl, rfl, by decide⟩

/-- Claim C6 (amended): a path outside /run/kata-containers fails with status
Internal (the core EINVAL is coarsened by the dispatcher); otherwise the data
is written at the offset into the sibling staging file (the path with its
extension replaced by tmp), created if needed and never truncated; while the
staged size differs from file_size the call succeeds without touching the
final path, and chmod/chown/rename onto the final path happen exactly when
the staged size equals file_size, the rename being the commit point. -/
theorem copy_file_staging_behavior (fs : FS) (req : CopyFileRequest) :
    (CONTAINER_BASE.isPrefixOf req.path = false → copy_file fs req = (.Internal, fs)) ∧
    (CONTAINER_BASE.isPrefixOf req.path = true →
     tmp_path req.path ≠ req.path →
     ((((staged_write fs req).length : Int) ≠ req.file_size →
         copy_file fs req =
           (.OK, ainsert (tmp_path req.path)
                   { tmp_cur fs req with content := staged_write fs req } fs) ∧
         alookup req.path (copy_file fs req).2 = alookup req.path fs) ∧
      (((staged_write fs req).length : Int) = req.file_size →
         (copy_file fs req).1 = RpcStatusCode.OK ∧
         alookup req.path (copy_file fs req).2 =
           some { content := staged_write fs req, mode := req.file_mode,
                  uid := req.uid, gid := req.gid } ∧
         alookup (tmp_path req.path) (copy_file fs req).2 = none))) := by
  constructor
  · intro hpre
    unfold copy_file do_copy_file
    rw [hpre]
    rw [if_pos rfl]
  · intro hpre htmp
    constructor
    · intro hsize
      have hdo : do_copy_file fs req =
          .ok (ainsert (tmp_path req.path)
            { tmp_cur fs req with content := staged_write fs req } fs) := by
        unfold do_copy_file
        rw [hpre]
        rw [if_neg (by decide)]
        rw [if_pos hsize]
      have hcf : copy_file fs req =
          (RpcStatusCode.OK,
           ainsert (tmp_path req.path)
             { tmp_cur fs req with content := staged_write fs req } fs) := by
        unfold copy_file
        rw [hdo]
      rw [hcf]
      exact ⟨rfl, alookup_ainsert_ne _ fs (Ne.symm htmp)⟩
    · intro hsize
      have hdo : do_copy_file fs req =
          .ok (ainsert req.path
            { content := staged_write fs req, mode := req.file_mode,
              uid := req.uid, gid := req.gid }
            (aerase (tmp_path req.path)
              (ainsert (tmp_path req.path)
                { content := staged_write fs req, mode := req.file_mode,
                  uid := req.uid, gid := req.gid }
                (ainsert (tmp_path req.path)
                  { tmp_cur fs req with content := staged_write fs req } fs)))) := by
        unfold do_copy_file
        rw [hpre]
        rw [if_neg (by decide)]
        rw [if_neg (fun hc => hc hsize)]
      have hcf : (copy_file fs req).2 =
          ainsert req.path
            { content := staged_write fs req, mode := req.file_mode,
              uid := req.uid, gid := req.gid }
            (aerase (tmp_path req.path)
              (ainsert (tmp_path req.path)
                { content := staged_write fs req, mode := req.file_mode,
                  uid := req.uid, gid := req.gid }
                (ainsert (tmp_path req.path)
                  { tmp_cur fs req with content := staged_write fs req } fs))) := by
        unfold copy_file
        rw [hdo]
      have hst : (copy_file fs req).1 = RpcStatusCode.OK := by
        unfold copy_file
        rw [hdo]
      refine ⟨hst, ?_, ?_⟩
      · rw [hcf]
        exact alookup_ainsert_self _ _ _
      · rw [hcf]
        rw [alookup_ainsert_ne _ _ htmp]
        exact alookup_aerase_self _ _

/-- Witness for the amended C6 theorem: the two-chunk transfer of the spec
scenario; the first chunk stages without creating the final file, the second
commits it and removes the staging entry. -/
theorem copy_file_staging_witness :
    copy_file [] copyReqChunk1 =
      (.OK, ainsert (tmp_path copyReqChunk1.path)
              { tmp_cur [] copyReqChunk1 with
                  content := staged_write [] copyReqChunk1 } []) ∧
    alookup copyReqChunk1.path (copy_file [] copyReqChunk1).2 =
      alookup copyReqChunk1.path ([] : FS) ∧
    (copy_file (copy_file [] copyReqChunk1).2 copyReqChunk2).1 = RpcStatusCode.OK ∧
    alookup copyReqChunk2.path
        (copy_file (copy_file [] copyReqChunk1).2 copyReqChunk2).2 =
      some { content := staged_write (copy_file [] copyReqChunk1).2 copyReqChunk2,
             mode := copyReqChunk2.file_mode, uid := copyReqChunk2.uid,
             gid := copyReqChunk2.gid } ∧
    alookup (tmp_path copyReqChunk2.path)
        (copy_file (copy_file [] copyReqChunk1).2 copyReqChunk2).2 = none := by
  have h1 := ((copy_file_staging_behavior [] copyReqChunk1).2 (by decide) (by decide)).1
      (by decide)
  have h2 := ((copy_file_staging_behavior (copy_file [] copyReqChunk1).2
      copyReqChunk2).2 (by decide) (by decide)).2 (by decide)
  exact ⟨h1.1, h1.2, h2.1, h2.2.1, h2.2.2⟩

end KataAgent

namespace KataAgent

/-- Claim C4 (counterexample): a CreateContainer that fails after mounting its
storages (here: namespace rewriting fails because the spec has no Linux
section) leaves a `container_mounts` key with no matching container, so the
between-RPC invariant of the claim does not hold. -/
theorem create_container_orphan_counterexample :
    exceptIsOk (do_create_container initSandbox reqCreateNoLinux createOraclesOk).1
        = false ∧
    alookup "c1"
        (do_create_container initSandbox reqCreateNoLinux createOraclesOk).2.container_mounts
        = some ["/mp1"] ∧
    alookup "c1"
        (do_create_container initSandbox reqCreateNoLinux createOraclesOk).2.containers
        = none ∧
    mounts_inv (do_create_container initSandbox reqCreateNoLinux createOraclesOk).2
        = false := by
  refine ⟨rfl, rfl, rfl, rfl⟩

end KataAgent

namespace KataAgent

/-- Inserting a container and its mount list under the same key preserves the
registry invariant. -/
theorem mounts_inv_insert (s : Sandbox) (cid : String) (m : List String)
    (ctr : Container) (h : mounts_inv s = true) :
    mounts_inv { s with container_mounts := ainsert cid m s.container_mounts,
                        containers := ainsert cid ctr s.containers } = true := by
  unfold mounts_inv at h ⊢
  rw [List.all_eq_true] at h ⊢
  intro k hk
  simp only at hk ⊢
  rcases mem_keys_ainsert hk with h1 | h1
  · subst h1
    simp [alookup_ainsert_self]
  · by_cases h2 : k = cid
    · subst h2
      simp [alookup_ainsert_self]
    · have h3 := h k h1
      simp only [alookup_ainsert_ne _ _ h2]
      simpa using h3

/-- Claim C4 (amended): a successful CreateContainer preserves the invariant
that every `container_mounts` key has a matching container, and a successful
RemoveContainer deletes the container entry and its `container_mounts` entry
in the same critical section; but a CreateContainer failing after applying
its storages leaves an orphaned `container_mounts` entry (see the
counterexample). -/
theorem container_mounts_invariant_amended (s : Sandbox)
    (req : CreateContainerRequest) (o : CreateOracles) (cid : String)
    (ro : RemoveOracles) :
    (mounts_inv s = true → exceptIsOk (do_create_container s req o).1 = true →
       mounts_inv (do_create_container s req o).2 = true) ∧
    (exceptIsOk (do_remove_container s cid 0 ro).1 = true →
       alookup cid (do_remove_container s cid 0 ro).2.containers = none ∧
       alookup cid (do_remove_container s cid 0 ro).2.container_mounts = none) := by
  constructor
  · intro hinv
    rcases hO : req.OCI with _ | oci
    · simp [do_create_container, hO, exceptIsOk]
    rcases hP : oci.ProcessSec with _ | u
    · simp [do_create_container, hO, hP, exceptIsOk]
    rcases hR1 : o.rescanRes with e | u1
    · simp [do_create_container, hO, hP, hR1, exceptIsOk]
    rcases hR2 : o.devicesRes with e | u2
    · simp [do_create_container, hO, hP, hR1, hR2, exceptIsOk]
    rcases hR3 : o.storagesRes with e | m
    · simp [do_create_container, hO, hP, hR1, hR2, hR3, exceptIsOk]
    rcases hU : update_container_namespaces
        { s with container_mounts := ainsert req.container_id m s.container_mounts }
        oci with e | oci'
    · simp [do_create_container, hO, hP, hR1, hR2, hR3, hU, exceptIsOk]
    rcases hR4 : o.bundleRes with e | u4
    · simp [do_create_container, hO, hP, hR1, hR2, hR3, hU, hR4, exceptIsOk]
    rcases hR5 : o.newCtrRes with e | u5
    · simp [do_create_container, hO, hP, hR1, hR2, hR3, hU, hR4, hR5, exceptIsOk]
    rcases hR6 : o.newProcRes with e | p
    · simp [do_create_container, hO, hP, hR1, hR2, hR3, hU, hR4, hR5, hR6, exceptIsOk]
    rcases hR7 : o.startRes with e | u7
    · simp [do_create_container, hO, hP, hR1, hR2, hR3, hU, hR4, hR5, hR6, hR7,
        exceptIsOk]
    intro hok
    have hres : (do_create_container s req o).2 =
        { s with container_mounts := ainsert req.container_id m s.container_mounts,
                 containers := ainsert req.container_id
                   { id := req.container_id, init_process_pid := p.pid,
                     processes := [(p.pid, p)] }
                   (({ s with container_mounts :=
                        ainsert req.container_id m s.container_mounts } : Sandbox)).containers } := by
      simp [do_create_container, hO, hP, hR1, hR2, hR3, hU, hR4, hR5, hR6, hR7]
    rw [hres]
    exact mounts_inv_insert _ _ _ _ hinv
  · rcases hC : alookup cid s.containers with _ | ctr
    · simp [do_remove_container, hC, exceptIsOk]
    rcases hD : ro.destroyRes with e | uD
    · simp [do_remove_container, hC, hD, exceptIsOk]
    rcases hM : alookup cid s.container_mounts with _ | mounts
    · intro hok
      have hres : (do_remove_container s cid 0 ro).2.containers =
            aerase cid s.containers ∧
          (do_remove_container s cid 0 ro).2.container_mounts =
            aerase cid s.container_mounts := by
        constructor <;>
          simp [do_remove_container, cleanup_container, hC, hD, hM]
      rw [hres.1, hres.2]
      exact ⟨alookup_aerase_self _ _, alookup_aerase_self _ _⟩
    rcases hRM : ro.removeMountsRes with e | uM
    · simp [do_remove_container, cleanup_container, hC, hD, hM, hRM, exceptIsOk]
    intro hok
    have hres : (do_remove_container s cid 0 ro).2.containers =
          aerase cid (List.foldl unset_and_remove_sandbox_storage s
            (List.filter (fun m => (alookup m s.storages).isSome) mounts)).containers ∧
        (do_remove_container s cid 0 ro).2.container_mounts =
          aerase cid (List.foldl unset_and_remove_sandbox_storage s
            (List.filter (fun m => (alookup m s.storages).isSome) mounts)).container_mounts := by
      constructor <;>
        simp [do_remove_container, cleanup_container, hC, hD, hM, hRM]
    rw [hres.1, hres.2]
    exact ⟨alookup_aerase_self _ _, alookup_aerase_self _ _⟩

/-- Witness for the amended C4 theorem at concrete inputs: a successful create
keeps the invariant; a successful timeout-0 remove deletes both entries. -/
theorem container_mounts_invariant_witness :
    mounts_inv (do_create_container initSandbox reqCreateOk createOraclesOk).2 = true ∧
    alookup "c1" (do_remove_container sRemove "c1" 0 removeOraclesOk).2.containers
        = none ∧
    alookup "c1" (do_remove_container sRemove "c1" 0 removeOraclesOk).2.container_mounts
        = none := by
  have h1 := (container_mounts_invariant_amended initSandbox reqCreateOk
      createOraclesOk "c1" removeOraclesOk).1 rfl rfl
  have h2 := (container_mounts_invariant_amended sRemove reqCreateOk
      createOraclesOk "c1" removeOraclesOk).2 rfl
  exact ⟨h1, h2.1, h2.2⟩

end KataAgent

namespace KataAgent

/-- Claim C2: a successful WaitProcess returns the exit code of the located
process, closes the five fds in the order stdin, stdout, stderr, term_master,
exit_pipe_r (the closed-fd trace is exactly their present values in that
order, each slot at most once), clears every fd slot, removes the process
from the table, and a second WaitProcess for the same process fails without
closing anything. -/
theorem wait_process_drains_and_removes (s : Sandbox) (cid eid : String)
    (ctr : Container) (p : Process)
    (hc : alookup cid s.containers = some ctr)
    (hkeys : ∀ kp ∈ ctr.processes, kp.1 = kp.2.pid)
    (hnodup : (ctr.processes.map Prod.fst).Nodup)
    (huniq : ∀ kp ∈ ctr.processes, kp.2.exec_id = eid → kp.2 = p)
    (hp : get_process ctr eid = some p) :
    do_wait_process s cid eid =
      .ok (⟨p.exit_code⟩,
           { s with containers :=
               ainsert cid ({ ctr with processes := aerase p.pid ctr.processes }) s.containers },
           [p.parent_stdin, p.parent_stdout, p.parent_stderr, p.term_master,
            p.exit_pipe_r].filterMap id) ∧
    (close_all_fds p).1.parent_stdin = none ∧
    (close_all_fds p).1.parent_stdout = none ∧
    (close_all_fds p).1.parent_stderr = none ∧
    (close_all_fds p).1.term_master = none ∧
    (close_all_fds p).1.exit_pipe_r = none ∧
    alookup p.pid (aerase p.pid ctr.processes) = none ∧
    get_process { ctr with processes := aerase p.pid ctr.processes } eid = none ∧
    do_wait_process
      { s with containers :=
          ainsert cid ({ ctr with processes := aerase p.pid ctr.processes }) s.containers }
      cid eid = .error (.ErrorCode "Invalid exec id") := by
  obtain ⟨kp0, hfind, hkp2⟩ := Option.map_eq_some'.mp hp
  have hmem : kp0 ∈ ctr.processes := List.mem_of_find?_eq_some hfind
  have hbeq := List.find?_some hfind
  have heid : kp0.2.exec_id = eid := by simpa using hbeq
  have hkey : kp0.1 = p.pid := by
    have h1 := hkeys kp0 hmem
    rw [hkp2] at h1
    exact h1
  have hmem' : (p.pid, p) ∈ ctr.processes := by
    have : kp0 = (p.pid, p) := by
      obtain ⟨a, b⟩ := kp0
      simp only at hkey hkp2
      rw [hkey, hkp2]
    rw [this] at hmem
    exact hmem
  have halookup : alookup p.pid ctr.processes = some p :=
    alookup_of_mem_nodup hnodup hmem'
  have hgpnone :
      get_process { ctr with processes := aerase p.pid ctr.processes } eid = none := by
    unfold get_process
    have hfn : (aerase p.pid ctr.processes).find?
        (fun kp => kp.2.exec_id == eid) = none := by
      rw [List.find?_eq_none]
      intro x hx hpred
      obtain ⟨hxmem, hxne⟩ := mem_of_mem_aerase hx
      have hxeq : x.2 = p := huniq x hxmem (by simpa using hpred)
      have hxkey := hkeys x hxmem
      rw [hxeq] at hxkey
      exact hxne hxkey
    simp [hfn]
  have h1 : do_wait_process s cid eid =
      .ok (⟨p.exit_code⟩,
           { s with containers :=
               ainsert cid ({ ctr with processes := aerase p.pid ctr.processes }) s.containers },
           [p.parent_stdin, p.parent_stdout, p.parent_stderr, p.term_master,
            p.exit_pipe_r].filterMap id) := by
    unfold do_wait_process find_process
    rw [hc]
    simp [hp, halookup, close_all_fds]
  have h2 : do_wait_process
      { s with containers :=
          ainsert cid ({ ctr with processes := aerase p.pid ctr.processes }) s.containers }
      cid eid = .error (.ErrorCode "Invalid exec id") := by
    unfold do_wait_process find_process
    rw [alookup_ainsert_self]
    simp [hgpnone]
  exact ⟨h1, rfl, rfl, rfl, rfl, rfl, alookup_aerase_self _ _, hgpnone, h2⟩

/-- Witness for the C2 theorem at a concrete container and process. -/
theorem wait_process_witness :
    do_wait_process sWait "c1" "e1" =
      .ok (⟨procWait.exit_code⟩,
           { sWait with containers := ainsert "c1" ({ ctrWait with processes := aerase procWait.pid ctrWait.processes }) sWait.containers },
           [procWait.parent_stdin, procWait.parent_stdout, procWait.parent_stderr,
            procWait.term_master, procWait.exit_pipe_r].filterMap id) ∧
    (close_all_fds procWait).1.parent_stdin = none ∧
    (close_all_fds procWait).1.parent_stdout = none ∧
    (close_all_fds procWait).1.parent_stderr = none ∧
    (close_all_fds procWait).1.term_master = none ∧
    (close_all_fds procWait).1.exit_pipe_r = none ∧
    alookup procWait.pid (aerase procWait.pid ctrWait.processes) = none ∧
    get_process { ctrWait with processes := aerase procWait.pid ctrWait.processes }
        "e1" = none ∧
    do_wait_process
      { sWait with containers := ainsert "c1" ({ ctrWait with processes := aerase procWait.pid ctrWait.processes }) sWait.containers }
      "c1" "e1" = .error (.ErrorCode "Invalid exec id") :=
  wait_process_drains_and_removes sWait "c1" "e1" ctrWait procWait
    (by decide) (by decide) (by decide) (by decide) (by decide)

end KataAgent

namespace KataAgent

/-- The namespace sweep never changes an entry type. -/
theorem rewrite_ns_type (sb : Sandbox) (ns : LinuxNamespace) :
    (rewrite_ns sb ns).nsType = ns.nsType := by
  unfold rewrite_ns
  split_ifs <;> rfl

/-- The namespace sweep leaves a fresh pid entry untouched. -/
theorem rewrite_ns_pid_entry (sb : Sandbox) :
    rewrite_ns sb { nsType := NSTYPEPID, Path := "" }
      = { nsType := NSTYPEPID, Path := "" } := by
  have d1 : ¬ NSTYPEPID = NSTYPEIPC := by decide
  have d2 : ¬ NSTYPEPID = NSTYPEUTS := by decide
  simp [rewrite_ns, d1, d2]

/-- The namespace sweep is pointwise idempotent. -/
theorem rewrite_ns_idem (sb : Sandbox) (ns : LinuxNamespace) :
    rewrite_ns sb (rewrite_ns sb ns) = rewrite_ns sb ns := by
  have d1 : ¬ NSTYPEUTS = NSTYPEIPC := by decide
  by_cases h1 : ns.nsType = NSTYPEIPC
  · simp [rewrite_ns, h1]
  · by_cases h2 : ns.nsType = NSTYPEUTS
    · simp [rewrite_ns, h1, h2, d1]
    · simp [rewrite_ns, h1, h2]

/-- Mapping the sweep twice equals mapping it once. -/
theorem map_rewrite_idem (sb : Sandbox) (L : List LinuxNamespace) :
    (L.map (rewrite_ns sb)).map (rewrite_ns sb) = L.map (rewrite_ns sb) := by
  induction L with
  | nil => simp
  | cons h t ih => simp [rewrite_ns_idem, ih]

/-- The sweep preserves whether a pid namespace entry is present. -/
theorem any_pid_map_rewrite (sb : Sandbox) (L : List LinuxNamespace) :
    (L.map (rewrite_ns sb)).any (fun ns => ns.nsType == NSTYPEPID)
      = L.any (fun ns => ns.nsType == NSTYPEPID) := by
  induction L with
  | nil => simp
  | cons h t ih => simp [rewrite_ns_type, ih]

/-- `update_container_namespaces` computes exactly `rewritten_namespaces`. -/
theorem update_container_namespaces_eq (sb : Sandbox) (spec : Spec) (l : Linux)
    (hL : spec.Linux = some l) :
    update_container_namespaces sb spec =
      .ok { spec with Linux := some { Namespaces := rewritten_namespaces sb l } } := by
  unfold update_container_namespaces rewritten_namespaces
  rw [hL]
  simp only
  by_cases hc : (l.Namespaces.any fun ns => ns.nsType == NSTYPEPID) = false
      ∧ sb.sandbox_pid_ns = false
  · rw [if_pos hc, if_pos hc]
  · rw [if_neg hc, if_neg hc]
    simp

/-- `rewritten_namespaces` is idempotent. -/
theorem rewritten_namespaces_idem (sb : Sandbox) (l : Linux) :
    rewritten_namespaces sb { Namespaces := rewritten_namespaces sb l }
      = rewritten_namespaces sb l := by
  unfold rewritten_namespaces
  by_cases hpid : (l.Namespaces.any fun ns => ns.nsType == NSTYPEPID) = false
  · by_cases hspn : sb.sandbox_pid_ns = false
    · have hone : (({ nsType := NSTYPEPID, Path := "" } : LinuxNamespace).nsType
          == NSTYPEPID) = true := by decide
      have hcond : ¬ (((l.Namespaces.map (rewrite_ns sb)
            ++ [({ nsType := NSTYPEPID, Path := "" } : LinuxNamespace)]).any
              fun ns => ns.nsType == NSTYPEPID) = false
          ∧ sb.sandbox_pid_ns = false) := by
        intro hcc
        obtain ⟨hcc1, -⟩ := hcc
        rw [List.any_append] at hcc1
        simp [hone] at hcc1
      rw [if_pos ⟨hpid, hspn⟩, if_neg hcond]
      simp [map_rewrite_idem, rewrite_ns_pid_entry, rewrite_ns_idem]
    · rw [if_neg (fun hc => hspn hc.2), if_neg (fun hc => hspn hc.2)]
      simp [map_rewrite_idem, rewrite_ns_idem]
  · have hcond : ¬ (((l.Namespaces.map (rewrite_ns sb) ++ []).any
          fun ns => ns.nsType == NSTYPEPID) = false
        ∧ sb.sandbox_pid_ns = false) := by
      intro hcc
      obtain ⟨hcc1, -⟩ := hcc
      rw [List.append_nil, any_pid_map_rewrite] at hcc1
      exact hpid hcc1
    rw [if_neg (fun hc => hpid hc.1), if_neg hcond]
    simp [map_rewrite_idem, rewrite_ns_idem]

/-- Claim C7: with a Linux section present, `update_container_namespaces`
overwrites every ipc path with the shared ipc namespace path and every uts
path with the shared uts namespace path, appends one pid entry with empty
path exactly when no pid entry was present and the sandbox has no shared pid
namespace (`rewritten_namespaces` states exactly this shape), and is
idempotent on its own output. -/
theorem update_container_namespaces_correct (sb : Sandbox) (spec : Spec)
    (l : Linux) (hL : spec.Linux = some l) :
    update_container_namespaces sb spec =
      .ok { spec with Linux := some { Namespaces := rewritten_namespaces sb l } } ∧
    (∀ spec', update_container_namespaces sb spec = .ok spec' →
       (∀ ns ∈ (spec'.Linux.getD { Namespaces := [] }).Namespaces,
          (ns.nsType = NSTYPEIPC → ns.Path = sb.shared_ipcns_path) ∧
          (ns.nsType = NSTYPEUTS → ns.Path = sb.shared_utsns_path)) ∧
       update_container_namespaces sb spec' = .ok spec') := by
  have hMain := update_container_namespaces_eq sb spec l hL
  refine ⟨hMain, ?_⟩
  intro spec' hspec'
  rw [hMain] at hspec'
  injection hspec' with hX
  subst hX
  constructor
  · intro ns hns
    simp only [Option.getD_some] at hns
    unfold rewritten_namespaces at hns
    rcases List.mem_append.mp hns with hin | hin
    · obtain ⟨ns0, hns0, rfl⟩ := List.mem_map.mp hin
      constructor
      · intro hipc
        have h1 : ns0.nsType = NSTYPEIPC := by
          rw [← rewrite_ns_type sb ns0]
          exact hipc
        simp [rewrite_ns, h1]
      · intro huts
        have h2 : ns0.nsType = NSTYPEUTS := by
          rw [← rewrite_ns_type sb ns0]
          exact huts
        have h1 : ¬ ns0.nsType = NSTYPEIPC := by
          rw [h2]
          decide
        have d1 : ¬ NSTYPEUTS = NSTYPEIPC := by decide
        simp [rewrite_ns, h1, h2, d1]
    · by_cases hc : (l.Namespaces.any fun ns => ns.nsType == NSTYPEPID) = false
          ∧ sb.sandbox_pid_ns = false
      · rw [if_pos hc] at hin
        simp only [List.mem_singleton] at hin
        subst hin
        constructor <;> intro h <;> exact absurd h (by decide)
      · rw [if_neg hc] at hin
        simp at hin
  · have h3 := update_container_namespaces_eq sb
      { spec with Linux := some { Namespaces := rewritten_namespaces sb l } }
      { Namespaces := rewritten_namespaces sb l } rfl
    rw [h3, rewritten_namespaces_idem]

/-- Witness for the C7 theorem at a concrete sandbox and OCI spec. -/
theorem update_container_namespaces_witness :
    update_container_namespaces sbNs specNsSample =
      .ok { specNsSample with
              Linux := some { Namespaces := rewritten_namespaces sbNs linuxNsSample } } ∧
    (∀ spec', update_container_namespaces sbNs specNsSample = .ok spec' →
       (∀ ns ∈ (spec'.Linux.getD { Namespaces := [] }).Namespaces,
          (ns.nsType = NSTYPEIPC → ns.Path = sbNs.shared_ipcns_path) ∧
          (ns.nsType = NSTYPEUTS → ns.Path = sbNs.shared_utsns_path)) ∧
       update_container_namespaces sbNs spec' = .ok spec') :=
  update_container_namespaces_correct sbNs specNsSample linuxNsSample rfl

end KataAgent

namespace KataAgent

/-- Claim C8: for a ReadStdout/ReadStderr on an existing process, a missing
suitable fd is the EINVAL (InvalidArgument) core error; a zero-length read is
the "read  meet eof" core error; EAGAIN succeeds with an empty buffer; and
any other read outcome is returned as the bytes read (other errnos
propagate). -/
theorem read_stream_semantics (s : Sandbox) (cid eid : String) (stdout : Bool)
    (l : Nat) (p : Process)
    (hp : find_process s cid eid false = .ok p) :
    (select_read_fd p stdout = none →
       ∀ outcome, do_read_stream s cid eid stdout l outcome
         = .error (.Nix .EINVAL)) ∧
    (∀ fd, select_read_fd p stdout = some fd →
       (do_read_stream s cid eid stdout l (.bytes [])
          = .error (.ErrorCode "read  meet eof")) ∧
       (do_read_stream s cid eid stdout l (.fails .EAGAIN) = .ok []) ∧
       (∀ bs, bs ≠ [] → do_read_stream s cid eid stdout l (.bytes bs) = .ok bs) ∧
       (∀ e, e ≠ Errno.EAGAIN →
          do_read_stream s cid eid stdout l (.fails e) = .error (.Nix e))) := by
  constructor
  · intro hsel outcome
    simp [do_read_stream, hp, hsel]
  · intro fd hsel
    refine ⟨?_, ?_, ?_, ?_⟩
    · simp [do_read_stream, hp, hsel, read_stream]
    · simp [do_read_stream, hp, hsel, read_stream]
    · intro bs hbs
      simp [do_read_stream, hp, hsel, read_stream, hbs]
    · intro e he
      simp [do_read_stream, hp, hsel, read_stream, he]

/-- Witness for the C8 theorem: a process with no usable fd yields EINVAL; a
process with a pty master follows the EOF/EAGAIN/data semantics. -/
theorem read_stream_witness :
    (do_read_stream sRead "c1" "a" true 16 (.bytes [7])
        = .error (.Nix .EINVAL)) ∧
    (do_read_stream sRead "c1" "b" true 16 (.bytes [])
        = .error (.ErrorCode "read  meet eof")) ∧
    (do_read_stream sRead "c1" "b" true 16 (.fails .EAGAIN) = .ok []) ∧
    (do_read_stream sRead "c1" "b" true 16 (.bytes [104, 105]) = .ok [104, 105]) ∧
    (do_read_stream sRead "c1" "b" true 16 (.fails .EIOerr)
        = .error (.Nix .EIOerr)) := by
  have h1 := (read_stream_semantics sRead "c1" "a" true 16 procNoFd rfl).1 rfl
      (.bytes [7])
  have h2 := (read_stream_semantics sRead "c1" "b" true 16 procTty rfl).2 5 rfl
  exact ⟨h1, h2.1, h2.2.1, h2.2.2.1 [104, 105] (by decide),
         h2.2.2.2 Errno.EIOerr (by decide)⟩

end KataAgent

namespace KataAgent

/-- `s ++ "" = s` for strings. -/
theorem string_append_empty (s : String) : s ++ "" = s := by
  cases s with
  | mk d => exact congrArg String.mk (List.append_nil d)

/-- String append is associative. -/
theorem string_append_assoc (a b c : String) : a ++ b ++ c = a ++ (b ++ c) := by
  cases a with
  | mk da =>
    cases b with
    | mk db =>
      cases c with
      | mk dc => exact congrArg String.mk (List.append_assoc da db dc)

/-- The inner pid loop appends nothing when the pid is not in the list. -/
theorem appendMatches_not_mem (pids : List Int) (pid : Int) (line acc : String)
    (h : pids.contains pid = false) :
    appendMatches pids pid line acc = acc := by
  induction pids generalizing acc with
  | nil => rfl
  | cons p t ih =>
    simp only [List.contains_cons, Bool.or_eq_false_iff] at h
    have hne : ¬ pid = p := by
      intro hh
      rw [hh] at h
      simp at h
    unfold appendMatches
    simp only [List.foldl_cons, if_neg hne]
    exact ih acc h.2

/-- With distinct pids, the inner loop appends the line exactly once when the
pid is a member, and never otherwise. -/
theorem appendMatches_eq (pids : List Int) (pid : Int) (line acc : String)
    (hnd : pids.Nodup) :
    appendMatches pids pid line acc
      = if pids.contains pid then acc ++ line else acc := by
  induction pids generalizing acc with
  | nil => rfl
  | cons p t ih =>
    rw [List.nodup_cons] at hnd
    by_cases hpp : pid = p
    · subst hpp
      have hnc : t.contains pid = false := by
        rw [Bool.eq_false_iff]
        intro hc
        exact hnd.1 (List.mem_of_elem_eq_true hc)
      have h1 := appendMatches_not_mem t pid line (acc ++ line) hnc
      unfold appendMatches at h1 ⊢
      rw [List.foldl_cons, if_pos rfl, h1]
      simp
    · have h1 := ih acc hnd.2
      unfold appendMatches at h1 ⊢
      rw [List.foldl_cons, if_neg hpp, h1]
      simp [hpp]

end KataAgent

namespace KataAgent

/-- `String.join` distributes over cons. -/
theorem string_join_cons (a : String) (l : List String) :
    String.join (a :: l) = a ++ String.join l := by
  cases a with
  | mk d =>
    rw [String.join_eq, String.join_eq]
    exact congrArg String.mk (by simp)

/-- The body loop of the "table" branch builds the header-prefixed
concatenation of exactly the selected lines, provided every examined pid
field parses and the pid list has no duplicates. -/
theorem tableLines_eq (pidIdx : Nat) (pids : List Int) (hnd : pids.Nodup)
    (ls : List String) :
    ∀ (acc : String),
      (∀ line ∈ ls, trimChars line.data ≠ [] → (splitWS line).length ≥ pidIdx + 1 →
         parseI32? (String.mk (trimChars ((splitWS line).getD pidIdx "").data))
           ≠ none) →
      tableLines pidIdx pids ls acc
        = some (acc ++ String.join (ls.filter (spec_line_included pidIdx pids))) := by
  induction ls with
  | nil =>
    intro acc _
    unfold tableLines
    rw [List.filter_nil, show String.join [] = "" from rfl, string_append_empty]
  | cons l ls ih =>
    intro acc hparse
    have hl := hparse l (List.mem_cons_self _ _)
    have hrest : ∀ line ∈ ls, trimChars line.data ≠ [] →
        (splitWS line).length ≥ pidIdx + 1 →
        parseI32? (String.mk (trimChars ((splitWS line).getD pidIdx "").data))
          ≠ none :=
      fun line hm => hparse line (List.mem_cons_of_mem _ hm)
    by_cases hb : trimChars l.data = []
    · have hf : spec_line_included pidIdx pids l = false := by
        unfold spec_line_included
        rw [if_pos hb]
      unfold tableLines
      rw [if_pos hb, ih acc hrest]
      simp [List.filter_cons, hf]
    · by_cases hlen : (splitWS l).length < pidIdx + 1
      · have hf : spec_line_included pidIdx pids l = false := by
          unfold spec_line_included
          rw [if_neg hb, if_pos hlen]
        unfold tableLines
        rw [if_neg hb, if_pos hlen, ih acc hrest]
        simp [List.filter_cons, hf]
      · have hge : (splitWS l).length ≥ pidIdx + 1 := Nat.le_of_not_lt hlen
        have hpar := hl hb hge
        rcases hv : parseI32?
            (String.mk (trimChars ((splitWS l).getD pidIdx "").data)) with _ | pid
        · exact absurd hv hpar
        · have hf : spec_line_included pidIdx pids l = pids.contains pid := by
            unfold spec_line_included
            rw [if_neg hb, if_neg hlen, hv]
          unfold tableLines
          rw [if_neg hb, if_neg hlen]
          simp only [hv]
          rw [ih (appendMatches pids pid l acc) hrest,
            appendMatches_eq pids pid l acc hnd]
          by_cases hc : pids.contains pid = true
          · rw [if_pos hc]
            rw [List.filter_cons_of_pos (by rw [hf]; exact hc)]
            rw [string_join_cons, ← string_append_assoc]
          · rw [if_neg hc]
            rw [List.filter_cons_of_neg (by rw [hf]; exact hc)]

/-- Claim C9: a format other than "table" or "json" yields InvalidArgument;
for format "table" (args defaulting to ["-ef"] before `ps` is spawned), the
response is the unmodified header line followed by exactly those body lines
whose PID-column integer is in the container pid set, and no other line. -/
theorem list_processes_table_filter (pids : List Int) (args : List String)
    (psOut : String) (pidIdx : Nat)
    (hnd : pids.Nodup)
    (hidx : (splitWS ((splitLines psOut).headD "")).findIdx? (fun f => f == "PID")
        = some pidIdx)
    (hparse : ∀ line ∈ (splitLines psOut).drop 1,
        trimChars line.data ≠ [] → (splitWS line).length ≥ pidIdx + 1 →
        parseI32? (String.mk (trimChars ((splitWS line).getD pidIdx "").data))
          ≠ none) :
    list_processes pids "table" args psOut =
      .ok (((splitLines psOut).headD "") ++
           String.join (((splitLines psOut).drop 1).filter
             (spec_line_included pidIdx pids))) ∧
    effective_ps_args [] = ["-ef"] ∧
    (∀ format, format ≠ "table" → format ≠ "json" →
       list_processes pids format args psOut = .invalidArg) := by
  refine ⟨?_, rfl, ?_⟩
  · unfold list_processes
    rw [if_pos rfl]
    simp only [hidx]
    rw [tableLines_eq pidIdx pids hnd ((splitLines psOut).drop 1)
      ((splitLines psOut).headD "") hparse]
  · intro format hf1 hf2
    unfold list_processes
    rw [if_neg hf1, if_neg hf2]

end KataAgent

namespace KataAgent

/-- Witness for the C9 theorem: the spec scenario with pids {42} and a ps
output containing rows for pids 1, 42 and 99 keeps exactly the 42 row. -/
theorem list_processes_witness :
    list_processes [42] "table" [] psOutSample =
      .ok (((splitLines psOutSample).headD "") ++
           String.join (((splitLines psOutSample).drop 1).filter
             (spec_line_included 1 [42]))) ∧
    effective_ps_args [] = ["-ef"] ∧
    list_processes [42] "tbl" [] psOutSample = .invalidArg ∧
    String.join (((splitLines psOutSample).drop 1).filter
        (spec_line_included 1 [42])) = "root 42 bash" := by
  have h := list_processes_table_filter [42] [] psOutSample 1 (by decide)
      (by decide) (by decide)
  exact ⟨h.1, h.2.1, h.2.2 "tbl" (by decide) (by decide), by decide⟩

end KataAgent

namespace KataAgent

/-- The public builders never produce the PID namespace type. -/
theorem buildNamespace_not_pid (ops : List BuilderOp) :
    (buildNamespace ops).ns_type ≠ NamespaceType.PID := by
  have haux : ∀ (ops : List BuilderOp) (n : Namespace),
      n.ns_type ≠ NamespaceType.PID →
      (ops.foldl applyBuilder n).ns_type ≠ NamespaceType.PID := by
    intro ops
    induction ops with
    | nil => intro n h; exact h
    | cons op t ih =>
      intro n h
      rw [List.foldl_cons]
      cases op with
      | asIpc => exact ih _ (by simp [applyBuilder, Namespace.as_ipc])
      | asUts => exact ih _ (by simp [applyBuilder, Namespace.as_uts])
      | setRootDir d => exact ih _ (by simpa [applyBuilder, Namespace.set_root_dir] using h)
  exact haux ops Namespace.new (by simp [Namespace.new])

/-- Claim C10: `setup` is reachable only for the IPC and UTS types through the
public builders; on success the returned record's path is
`<persistent_ns_dir>/<type>`, the trace being: create the directory and the
target file on the dispatcher thread, then on the worker thread open the
worker's own ns file, unshare with the flag of the type, and recursive-bind
mount that ns path onto the target; the unshare is never performed by the
dispatcher thread; and every failing step yields Err carrying the error as a
string. -/
theorem namespace_setup_correct (ops : List BuilderOp) (n : Namespace)
    (pid tid : Nat) (o : SetupOracles) :
    ((buildNamespace ops).ns_type = NamespaceType.IPC ∨
       (buildNamespace ops).ns_type = NamespaceType.UTS) ∧
    (o.create_dir_err = none → o.create_file_err = none → o.open_origin_err = none →
     o.unshare_err = none → o.mount_err = none → o.join_err = none →
       Namespace.setup n pid tid o =
         (.ok { n with path := n.persistent_ns_dir ++ "/" ++ n.ns_type.get },
          [.create_dir n.persistent_ns_dir .dispatcher,
           .create_file (n.persistent_ns_dir ++ "/" ++ n.ns_type.get) .dispatcher,
           .open_file (get_current_thread_ns_path pid tid n.ns_type.get) .worker,
           .unshare_ns n.ns_type.get_flags .worker,
           .bind_mount (get_current_thread_ns_path pid tid n.ns_type.get)
             (n.persistent_ns_dir ++ "/" ++ n.ns_type.get) "none" FLAGS_rbind
             .worker])) ∧
    (∀ fl a, Action.unshare_ns fl a ∈ (Namespace.setup n pid tid o).2 →
       a = Actor.worker) ∧
    (∀ err, o.create_dir_err = some err →
       (Namespace.setup n pid tid o).1 = .error err) ∧
    (∀ err, o.create_dir_err = none → o.create_file_err = some err →
       (Namespace.setup n pid tid o).1 = .error err) ∧
    (∀ err, o.create_dir_err = none → o.create_file_err = none →
     o.join_err = none → o.open_origin_err = some err →
       (Namespace.setup n pid tid o).1 = .error err) ∧
    (∀ err, o.create_dir_err = none → o.create_file_err = none →
     o.join_err = none → o.open_origin_err = none → o.unshare_err = some err →
       (Namespace.setup n pid tid o).1 = .error err) ∧
    (∀ err, o.create_dir_err = none → o.create_file_err = none →
     o.join_err = none → o.open_origin_err = none → o.unshare_err = none →
     o.mount_err = some err →
       (Namespace.setup n pid tid o).1 =
         .error ("Failed to mount " ++ get_current_thread_ns_path pid tid n.ns_type.get
            ++ " to " ++ (n.persistent_ns_dir ++ "/" ++ n.ns_type.get)
            ++ " with err:" ++ err)) ∧
    (∀ err, o.create_dir_err = none → o.create_file_err = none →
     o.join_err = some err →
       (Namespace.setup n pid tid o).1 =
         .error ("Failed to join thread " ++ err ++ "!")) := by
  have hbuild := buildNamespace_not_pid ops
  refine ⟨?_, ?_, ?_, ?_, ?_, ?_, ?_, ?_, ?_⟩
  · cases hb : (buildNamespace ops).ns_type with
    | IPC => exact Or.inl rfl
    | UTS => exact Or.inr rfl
    | PID => exact absurd hb hbuild
  · intro h1 h2 h3 h4 h5 h6
    simp [Namespace.setup, h1, h2, h3, h4, h5, h6]
  · intro fl a hmem
    rcases h1 : o.create_dir_err with _ | e1
    all_goals rcases h2 : o.create_file_err with _ | e2
    all_goals rcases h3 : o.open_origin_err with _ | e3
    all_goals rcases h4 : o.unshare_err with _ | e4
    all_goals rcases h5 : o.mount_err with _ | e5
    all_goals rcases h6 : o.join_err with _ | e6
    all_goals simp [Namespace.setup, h1, h2, h3, h4, h5, h6] at hmem
    all_goals tauto
  · intro err h1
    simp [Namespace.setup, h1]
  · intro err h1 h2
    simp [Namespace.setup, h1, h2]
  · intro err h1 h2 h3 h4
    simp [Namespace.setup, h1, h2, h3, h4]
  · intro err h1 h2 h3 h4 h5
    simp [Namespace.setup, h1, h2, h3, h4, h5]
  · intro err h1 h2 h3 h4 h5 h6
    simp [Namespace.setup, h1, h2, h3, h4, h5, h6]
  · intro err h1 h2 h3
    simp [Namespace.setup, h1, h2, h3]

end KataAgent

namespace KataAgent

/-- Witness for the C10 theorem: a uts namespace built through the public
builders, the successful setup trace at concrete thread ids, and an unshare
failure propagated as its error string. -/
theorem namespace_setup_witness :
    ((buildNamespace [BuilderOp.asUts]).ns_type = NamespaceType.IPC ∨
       (buildNamespace [BuilderOp.asUts]).ns_type = NamespaceType.UTS) ∧
    Namespace.setup Namespace.new 1 2 setupOraclesOk =
      (.ok { Namespace.new with
               path := Namespace.new.persistent_ns_dir ++ "/"
                 ++ Namespace.new.ns_type.get },
       [.create_dir Namespace.new.persistent_ns_dir .dispatcher,
        .create_file (Namespace.new.persistent_ns_dir ++ "/"
          ++ Namespace.new.ns_type.get) .dispatcher,
        .open_file (get_current_thread_ns_path 1 2 Namespace.new.ns_type.get) .worker,
        .unshare_ns Namespace.new.ns_type.get_flags .worker,
        .bind_mount (get_current_thread_ns_path 1 2 Namespace.new.ns_type.get)
          (Namespace.new.persistent_ns_dir ++ "/" ++ Namespace.new.ns_type.get)
          "none" FLAGS_rbind .worker]) ∧
    (Namespace.setup Namespace.new 1 2
        { setupOraclesOk with unshare_err := some "EPERM" }).1 = .error "EPERM" := by
  have h := namespace_setup_correct [BuilderOp.asUts] Namespace.new 1 2 setupOraclesOk
  have h2 := namespace_setup_correct [] Namespace.new 1 2
      { setupOraclesOk with unshare_err := some "EPERM" }
  exact ⟨h.1, h.2.1 rfl rfl rfl rfl rfl rfl,
         h2.2.2.2.2.2.2.1 "EPERM" rfl rfl rfl rfl rfl⟩

end KataAgent

namespace KataAgent

/-- Claim C1 (counterexample): when shared-namespace setup fails,
`create_sandbox` replies FailedPrecondition but leaves `running = true` (the
flag is set before the setup and never rolled back), and a later RPC is not
rejected: a CreateContainer on the failed state still succeeds. -/
theorem create_sandbox_counterexample :
    (create_sandbox initSandbox { sandbox_id := "sb", hostname := "host" }
        (.error "ns setup failed") (.ok [])).1 = RpcStatusCode.FailedPrecondition ∧
    (create_sandbox initSandbox { sandbox_id := "sb", hostname := "host" }
        (.error "ns setup failed") (.ok [])).2.running = true ∧
    exceptIsOk
        (do_create_container
          (create_sandbox initSandbox { sandbox_id := "sb", hostname := "host" }
              (.error "ns setup failed") (.ok [])).2
          reqCreateOk createOraclesOk).1 = true := by
  refine ⟨rfl, rfl, rfl⟩

/-- Claim C1 (amended): every failure of CreateSandbox (shared-namespace setup
or storage application) replies FailedPrecondition, but the running flag —
set to true before the fallible steps — stays true in the resulting state,
and later RPCs are not gated on it: `do_start_container` is insensitive to
the value of `running`. -/
theorem create_sandbox_failure_behavior (s : Sandbox)
    (req : CreateSandboxRequest) (setupRes : Except String Unit)
    (storageRes : Except String (List String))
    (h : exceptIsOk setupRes = false ∨ exceptIsOk storageRes = false) :
    (create_sandbox s req setupRes storageRes).1 = RpcStatusCode.FailedPrecondition ∧
    (create_sandbox s req setupRes storageRes).2.running = true ∧
    (∀ (cid : String) (execRes : Except AgentError Unit) (b : Bool),
        do_start_container { s with running := b } cid execRes
          = do_start_container s cid execRes) := by
  refine ⟨?_, ?_, fun cid execRes b => rfl⟩ <;>
  · cases setupRes with
    | error e => unfold create_sandbox setup_shared_namespaces; split <;> rfl
    | ok u =>
      cases storageRes with
      | error e' => unfold create_sandbox setup_shared_namespaces; split <;> rfl
      | ok m => simp [exceptIsOk] at h

/-- Witness for the amended C1 theorem at a concrete input. -/
theorem create_sandbox_failure_witness :
    (create_sandbox initSandbox { sandbox_id := "sb", hostname := "host" }
        (.ok ()) (.error "storage failed")).1 = RpcStatusCode.FailedPrecondition ∧
    (create_sandbox initSandbox { sandbox_id := "sb", hostname := "host" }
        (.ok ()) (.error "storage failed")).2.running = true ∧
    (∀ (cid : String) (execRes : Except AgentError Unit) (b : Bool),
        do_start_container { initSandbox with running := b } cid execRes
          = do_start_container initSandbox cid execRes) :=
  create_sandbox_failure_behavior initSandbox
    { sandbox_id := "sb", hostname := "host" } (.ok ()) (.error "storage failed")
    (by decide)

end KataAgent
